import Mathlib

/-
Verification of the pr-review-bot scheduler core against its specification.

The embedding below is a shallow model of the TypeScript sources:
  - src/src/types/index.ts           (domain types, getReviewTier)
  - src/src/components/state.tsx     (isReviewed, recordReview, getReviewHistory;
                                      the mounted/unmounted module-level store)
  - src/unnamed/part_000 (app file)  (handlePullRequest, handleReviewComplete,
                                      the pendingPRs signal)
  - src/src/components/review-pr.tsx (the per-item pipeline run by ReviewPR's
                                      onMount body, parseReviewResult)
  - src/src/memory.ts                (FileMemory.saveState flush to durable storage)

Stateful code is modelled by explicit state passing: the module-level store
(`_reviews` / `_setOutputs`) is an `Option (List ReviewRecord)` — `none` when
StateManager is not mounted, `some l` when mounted with record list `l`.
External collaborators (GitHub client, inference client, JSON.parse, the clock)
are modelled as explicit inputs to the pipeline run.
-/

namespace PRReviewBot

/-- Verdict of a review, from `ReviewResult["verdict"]` in src/src/types/index.ts. -/
inductive Verdict where
  | approve
  | request_changes
  | comment
deriving DecidableEq, Repr

/-- Severity level, from src/src/types/index.ts. -/
inductive Severity where
  | low
  | medium
  | high
deriving DecidableEq, Repr

/-- Review tier, from `ReviewTier` in src/src/types/index.ts. -/
inductive ReviewTier where
  | quick
  | standard
  | deep
deriving DecidableEq, Repr

/-- A pull-request event, from `PullRequestEvent` in src/src/types/index.ts. -/
structure PullRequestEvent where
  id : Int
  number : Nat
  title : String
  author : String
  body : Option String
  repo : String
  baseBranch : String
  headBranch : String
  diffUrl : String
  htmlUrl : String
  changedLines : Nat
  createdAt : String
deriving DecidableEq, Repr

/-- A single review finding, from `ReviewFinding` in src/src/types/index.ts. -/
structure ReviewFinding where
  file : Option String
  category : String
  description : String
  suggestion : String
  severity : Severity
deriving DecidableEq, Repr

/-- Structured review output, from `ReviewResult` in src/src/types/index.ts. -/
structure ReviewResult where
  summary : String
  verdict : Verdict
  severity : Severity
  findings : List ReviewFinding
  positives : List String
  commentBody : String
deriving DecidableEq, Repr

/-- Persisted record of a completed review, from `ReviewRecord` in
src/src/types/index.ts. -/
structure ReviewRecord where
  prId : Int
  prNumber : Nat
  repo : String
  reviewedAt : String
  verdict : Verdict
  commentId : Option Int
deriving DecidableEq, Repr

/-- Tier classifier `getReviewTier` from src/src/types/index.ts:

    if (changedLines <= 50) return "quick";
    if (changedLines <= 300) return "standard";
    return "deep";

`changedLines` is `additions + deletions` (src/src/components/channel source),
hence a non-negative integer, modelled as `Nat`. -/
def getReviewTier (changedLines : Nat) : ReviewTier :=
  if changedLines ≤ 50 then .quick
  else if changedLines ≤ 300 then .standard
  else .deep

/-- The module-level review store of src/src/components/state.tsx:
`none` when StateManager is unmounted (`_reviews` / `_setOutputs` are null),
`some l` when mounted holding the record list `l`. -/
abbrev ReviewStore := Option (List ReviewRecord)

/-- `isReviewed` from src/src/components/state.tsx:

    if (!_reviews) return false;
    return (_reviews() ?? []).some((r) => r.prId === prId);
-/
def isReviewed (store : ReviewStore) (prId : Int) : Bool :=
  match store with
  | none => false
  | some l => l.any (fun r => r.prId == prId)

/-- `recordReview` from src/src/components/state.tsx. When `_setOutputs` is
null (store unmounted) it logs a warning and returns without persisting;
otherwise it appends the record:

    _setOutputs(prev => ({ reviews: [...(prev?.reviews ?? []), record] }));

The model returns the resulting store state; the source function returns void,
so no success/failure value reaches the caller. -/
def recordReview (store : ReviewStore) (record : ReviewRecord) : ReviewStore :=
  match store with
  | none => none
  | some l => some (l ++ [record])

/-- `getReviewHistory` from src/src/components/state.tsx:

    if (!_reviews) return [];
    return _reviews() ?? [];
-/
def getReviewHistory (store : ReviewStore) : List ReviewRecord :=
  match store with
  | none => []
  | some l => l

/-- `handlePullRequest` from the app file (src/unnamed/part_000): skip when
already reviewed per the durable store, skip when already pending, otherwise
append to the pendingPRs signal. -/
def handlePullRequest (store : ReviewStore) (pending : List PullRequestEvent)
    (e : PullRequestEvent) : List PullRequestEvent :=
  if isReviewed store e.id then pending
  else if pending.any (fun pr => pr.id == e.id) then pending
  else pending ++ [e]

/-- `handleReviewComplete` from the app file (src/unnamed/part_000):

    setPendingPRs((current) => current.filter((pr) => pr.id !== prId));
-/
def handleReviewComplete (pending : List PullRequestEvent) (prId : Int) :
    List PullRequestEvent :=
  pending.filter (fun pr => pr.id != prId)

/-- Combined application state: the durable review store plus the pendingPRs
signal of the app file. -/
structure AppState where
  store : ReviewStore
  pending : List PullRequestEvent
deriving DecidableEq, Repr

/-- One externally triggered state transition of the app: a webhook event
reaching `handlePullRequest`, a pipeline committing via `recordReview`, or a
pipeline signalling `handleReviewComplete`. -/
inductive AppAction where
  | intake (e : PullRequestEvent)
  | persist (r : ReviewRecord)
  | complete (prId : Int)
deriving Repr

/-- Apply one action to the application state. -/
def stepApp (s : AppState) : AppAction → AppState
  | .intake e => { s with pending := handlePullRequest s.store s.pending e }
  | .persist r => { s with store := recordReview s.store r }
  | .complete prId => { s with pending := handleReviewComplete s.pending prId }

/-- Apply a sequence of actions to the application state. -/
def runApp (s : AppState) (acts : List AppAction) : AppState :=
  acts.foldl stepApp s

end PRReviewBot

namespace PRReviewBot

/-! Helper lemmas shared by the claim theorems. -/

/-- Appending a record never un-reviews an id. -/
theorem isReviewed_recordReview_mono (st : ReviewStore) (r : ReviewRecord)
    (id : Int) (h : isReviewed st id = true) :
    isReviewed (recordReview st r) id = true := by
  cases st with
  | none => simp [isReviewed] at h
  | some l =>
    simp only [isReviewed, recordReview, List.any_append, Bool.or_eq_true] at h ⊢
    exact Or.inl h

/-- No step of the application ever un-reviews an id: the store is only touched
by `recordReview`, which appends. -/
theorem isReviewed_stepApp_mono (s : AppState) (a : AppAction) (id : Int)
    (h : isReviewed s.store id = true) :
    isReviewed (stepApp s a).store id = true := by
  cases a with
  | intake e => exact h
  | persist r => exact isReviewed_recordReview_mono s.store r id h
  | complete prId => exact h

/-- No sequence of application steps ever un-reviews an id. -/
theorem isReviewed_runApp_mono (s : AppState) (acts : List AppAction) (id : Int)
    (h : isReviewed s.store id = true) :
    isReviewed (runApp s acts).store id = true := by
  induction acts generalizing s with
  | nil => exact h
  | cons a rest ih => exact ih (stepApp s a) (isReviewed_stepApp_mono s a id h)

/-- Sample completed-review record used to instantiate witnesses. -/
def sampleRecord : ReviewRecord :=
  { prId := 7, prNumber := 42, repo := "octo/widgets",
    reviewedAt := "2026-01-02T03:04:05Z", verdict := .approve,
    commentId := some 901 }

/-- Sample pull-request event (id matches `sampleRecord.prId`) used to
instantiate witnesses. -/
def samplePR : PullRequestEvent :=
  { id := 7, number := 42, title := "Add rate limiter", author := "octocat",
    body := some "limits request rate", repo := "octo/widgets",
    baseBranch := "main", headBranch := "feature/rate-limit",
    diffUrl := "https://example.test/pr/42.diff",
    htmlUrl := "https://example.test/pr/42",
    changedLines := 120, createdAt := "2026-01-01T00:00:00Z" }

/-- C3: `getReviewTier` is a pure total function on non-negative integers with
thresholds 50 and 300: `metric ≤ 50 → quick`, `50 < metric ≤ 300 → standard`,
`metric > 300 → deep`, with the stated boundary values. Determinism is
immediate: the model is a Lean function of its argument alone, mirroring the
side-effect-free source. -/
theorem getReviewTier_thresholds :
    (∀ m : Nat,
      (m ≤ 50 → getReviewTier m = .quick)
      ∧ (50 < m → m ≤ 300 → getReviewTier m = .standard)
      ∧ (300 < m → getReviewTier m = .deep))
    ∧ getReviewTier 50 = .quick
    ∧ getReviewTier 51 = .standard
    ∧ getReviewTier 300 = .standard
    ∧ getReviewTier 301 = .deep := by
  refine ⟨fun m => ⟨fun h => ?_, fun h1 h2 => ?_, fun h => ?_⟩, rfl, rfl, rfl, rfl⟩
  · unfold getReviewTier
    rw [if_pos h]
  · unfold getReviewTier
    rw [if_neg (by omega), if_pos h2]
  · unfold getReviewTier
    rw [if_neg (by omega), if_neg (by omega)]

/-- Witness for C3 at concrete inputs. -/
theorem getReviewTier_thresholds_witness :
    getReviewTier 10 = .quick ∧ getReviewTier 200 = .standard
    ∧ getReviewTier 400 = .deep :=
  ⟨(getReviewTier_thresholds.1 10).1 (by decide),
   (getReviewTier_thresholds.1 200).2.1 (by decide) (by decide),
   (getReviewTier_thresholds.1 400).2.2 (by decide)⟩

/-- C1: admission is deduplicating and final. `handlePullRequest` leaves the
pending set unchanged (so no pipeline instance is created by the For loop over
it) whenever the durable store already records the event's id or an event with
the same id is already pending; otherwise the event is appended. Moreover,
once `isReviewed` holds for an id it keeps holding across any further sequence
of application actions, so every subsequent admission of that id is a no-op. -/
theorem handlePullRequest_dedup_final :
    ∀ (store : ReviewStore) (pending : List PullRequestEvent)
      (e : PullRequestEvent),
      (isReviewed store e.id = true → handlePullRequest store pending e = pending)
      ∧ (pending.any (fun pr => pr.id == e.id) = true →
          handlePullRequest store pending e = pending)
      ∧ (isReviewed store e.id = false →
          pending.any (fun pr => pr.id == e.id) = false →
          handlePullRequest store pending e = pending ++ [e])
      ∧ (∀ (s : AppState) (acts : List AppAction),
          isReviewed s.store e.id = true →
          handlePullRequest (runApp s acts).store (runApp s acts).pending e =
            (runApp s acts).pending) := by
  intro store pending e
  refine ⟨fun h => ?_, fun h => ?_, fun h1 h2 => ?_, fun s acts h => ?_⟩
  · simp [handlePullRequest, h]
  · simp [handlePullRequest, h]
  · simp [handlePullRequest, h1, h2]
  · simp [handlePullRequest, isReviewed_runApp_mono s acts e.id h]

/-- Witness for C1: a recorded id is skipped, a pending id is skipped, a fresh
id is appended, and after further actions a recorded id is still skipped. -/
theorem handlePullRequest_dedup_final_witness :
    handlePullRequest (some [sampleRecord]) [] samplePR = []
    ∧ handlePullRequest none [samplePR] samplePR = [samplePR]
    ∧ handlePullRequest none [] samplePR = [samplePR]
    ∧ handlePullRequest
        (runApp ⟨some [sampleRecord], []⟩
          [AppAction.persist sampleRecord, AppAction.complete 3]).store
        (runApp ⟨some [sampleRecord], []⟩
          [AppAction.persist sampleRecord, AppAction.complete 3]).pending
        samplePR =
        (runApp ⟨some [sampleRecord], []⟩
          [AppAction.persist sampleRecord, AppAction.complete 3]).pending :=
  ⟨(handlePullRequest_dedup_final (some [sampleRecord]) [] samplePR).1 (by decide),
   (handlePullRequest_dedup_final none [samplePR] samplePR).2.1 (by decide),
   (handlePullRequest_dedup_final none [] samplePR).2.2.1 rfl rfl,
   (handlePullRequest_dedup_final (some [sampleRecord]) [] samplePR).2.2.2
     ⟨some [sampleRecord], []⟩ [AppAction.persist sampleRecord, AppAction.complete 3]
     (by decide)⟩

/-- C9: with the state store unmounted (module accessors null), `isReviewed`
returns false for every id and `getReviewHistory` returns the empty list —
both are total functions, mirroring the null-guarded source — so no item is
considered completed and an event whose id is not pending is (re-)admitted. -/
theorem unmounted_store_defaults :
    (∀ id : Int, isReviewed none id = false)
    ∧ getReviewHistory none = []
    ∧ (∀ (pending : List PullRequestEvent) (e : PullRequestEvent),
        pending.any (fun pr => pr.id == e.id) = false →
        handlePullRequest none pending e = pending ++ [e]) := by
  refine ⟨fun _ => rfl, rfl, fun pending e h => ?_⟩
  simp [handlePullRequest, isReviewed, h]

/-- Witness for C9: with the store unmounted, an event whose id was completed
in some earlier epoch is admitted again. -/
theorem unmounted_store_defaults_witness :
    handlePullRequest none [] samplePR = [samplePR] :=
  unmounted_store_defaults.2.2 [] samplePR rfl

/-- C10: `recordReview` on a mounted store is exactly an append — every prior
record survives in the same relative order with the new record at the end —
and consequently `isReviewed` is monotone: once true for an id, it stays true
under one more `recordReview` and under any further sequence of them (on an
unmounted store `recordReview` persists nothing, so nothing is removed either
and monotonicity holds vacuously). -/
theorem recordReview_append_monotone :
    (∀ (l : List ReviewRecord) (r : ReviewRecord),
      recordReview (some l) r = some (l ++ [r]))
    ∧ (∀ (st : ReviewStore) (r : ReviewRecord) (id : Int),
        isReviewed st id = true → isReviewed (recordReview st r) id = true)
    ∧ (∀ (st : ReviewStore) (rs : List ReviewRecord) (id : Int),
        isReviewed st id = true →
        isReviewed (rs.foldl recordReview st) id = true) := by
  refine ⟨fun l r => rfl, isReviewed_recordReview_mono, fun st rs id h => ?_⟩
  induction rs generalizing st with
  | nil => exact h
  | cons r rest ih =>
    exact ih (recordReview st r) (isReviewed_recordReview_mono st r id h)

/-- Witness for C10 at concrete inputs. -/
theorem recordReview_append_monotone_witness :
    recordReview (some []) sampleRecord = some [sampleRecord]
    ∧ isReviewed (recordReview (some [sampleRecord]) sampleRecord) 7 = true
    ∧ isReviewed
        ([sampleRecord, sampleRecord].foldl recordReview (some [sampleRecord]))
        7 = true :=
  ⟨recordReview_append_monotone.1 [] sampleRecord,
   recordReview_append_monotone.2.1 (some [sampleRecord]) sampleRecord 7 (by decide),
   recordReview_append_monotone.2.2 (some [sampleRecord])
     [sampleRecord, sampleRecord] 7 (by decide)⟩

/-- Folding `recordReview` over a mounted store appends the whole sequence. -/
theorem foldl_recordReview_some (rs : List ReviewRecord) (l : List ReviewRecord) :
    rs.foldl recordReview (some l) = some (l ++ rs) := by
  induction rs generalizing l with
  | nil => simp
  | cons r rest ih =>
    show rest.foldl recordReview (recordReview (some l) r) = some (l ++ (r :: rest))
    rw [recordReview, ih (l ++ [r])]
    simp

/-- C2 counterexample: `recordReview` appends unconditionally, so committing
the same record twice into the empty mounted store leaves two entries with the
same `prId` — refuting the claim that a second commit for an itemId already
present is a no-op or overwrite and never a duplicate. -/
theorem recordReview_duplicate_counterexample :
    recordReview (recordReview (some []) sampleRecord) sampleRecord =
      some [sampleRecord, sampleRecord]
    ∧ (getReviewHistory
        (recordReview (recordReview (some []) sampleRecord) sampleRecord)).countP
        (fun r => r.prId == sampleRecord.prId) = 2 := by
  constructor <;> rfl

/-- C2 amended: `recordReview` deduplicates nothing; the store holds at most
one record per itemId only when no two commits share an itemId. For any
sequence of records with pairwise distinct `prId`s committed into the empty
mounted store, the resulting history has at most one record per id. -/
theorem recordReview_unique_when_distinct :
    ∀ (rs : List ReviewRecord),
      rs.Pairwise (fun a b => a.prId ≠ b.prId) →
      ∀ id : Int,
        (getReviewHistory (rs.foldl recordReview (some []))).countP
          (fun r => r.prId == id) ≤ 1 := by
  intro rs hdist id
  rw [foldl_recordReview_some rs [], List.nil_append]
  show (getReviewHistory (some rs)).countP (fun r => r.prId == id) ≤ 1
  rw [getReviewHistory]
  induction rs with
  | nil => simp
  | cons r rest ih =>
    rw [List.pairwise_cons] at hdist
    rw [List.countP_cons]
    by_cases hr : r.prId = id
    · have hzero : rest.countP (fun x => x.prId == id) = 0 := by
        rw [List.countP_eq_zero]
        intro b hb
        have : r.prId ≠ b.prId := hdist.1 b hb
        simp only [beq_iff_eq]
        omega
      simp [hzero, hr]
    · have : (r.prId == id) = false := by simp [hr]
      simp only [this, if_false, Nat.add_zero]
      exact ih hdist.2

/-- Witness for C2 amended at a concrete two-record input. -/
theorem recordReview_unique_when_distinct_witness :
    (getReviewHistory
      ([sampleRecord, { sampleRecord with prId := 8 }].foldl recordReview
        (some []))).countP (fun r => r.prId == 7) ≤ 1 :=
  recordReview_unique_when_distinct
    [sampleRecord, { sampleRecord with prId := 8 }]
    (by simp [sampleRecord]) 7

end PRReviewBot

namespace PRReviewBot

/-! The per-item pipeline of src/src/components/review-pr.tsx. -/

/-- One left-to-right pass removing every occurrence of `pat` together with an
optionally following newline, after the JS global regex `/pat\n?/g` used in
`parseReviewResult`. The fuel argument bounds recursion; callers pass
`length + 1`, enough for the non-empty patterns used. -/
def stripPatAux (pat : List Char) : Nat → List Char → List Char
  | 0, cs => cs
  | _ + 1, [] => []
  | fuel + 1, c :: rest =>
    if pat.isPrefixOf (c :: rest) then
      match (c :: rest).drop pat.length with
      | '\n' :: after2 => stripPatAux pat fuel after2
      | after2 => stripPatAux pat fuel after2
    else
      c :: stripPatAux pat fuel rest

/-- String wrapper for `stripPatAux`. -/
def stripPat (pat : String) (s : String) : String :=
  String.mk (stripPatAux pat.data (s.data.length + 1) s.data)

/-- The fence cleanup from `parseReviewResult` in src/src/components/review-pr.tsx:

    raw.replace(/```json\n?/g, "").replace(/```\n?/g, "").trim()
-/
def cleanFences (raw : String) : String :=
  (stripPat "```" (stripPat "```json" raw)).trim

/-- The fixed text preceding the raw model output in the fallback
`commentBody` of `parseReviewResult` (apostrophe written as an escape). -/
def fallbackIntro : String :=
  "I reviewed this PR but encountered an issue formatting the structured output. Here\x27s the raw analysis:\n\n"

/-- `parseReviewResult` from src/src/components/review-pr.tsx. The builtin
`JSON.parse` (plus the unchecked `as ReviewResult` cast) is an external
collaborator, modelled as an explicit function argument `jsonParse`; the
source's try/catch makes the whole function total, which the model reflects by
being a total Lean function. On parse failure it returns the hard-coded
fallback result instead of throwing. -/
def parseReviewResult (jsonParse : String → Option ReviewResult) (raw : String)
    (pr : PullRequestEvent) : ReviewResult :=
  match jsonParse (cleanFences raw) with
  | some parsed => parsed
  | none =>
    { summary := "Review for \"" ++ pr.title ++ "\""
      verdict := .comment
      severity := .low
      findings := []
      positives := []
      commentBody := fallbackIntro ++ raw }

/-- The external-world inputs consumed by one run of ReviewPR's onMount body:
the result of `github.botAlreadyCommented`, the text returned by
`github.fetchDiff` (empty string on error, which the source treats as falsy),
the inference call outcome (`none` when the Claude API call throws, `some raw`
with the returned text otherwise), the value returned by
`github.postReviewComment` (the review id, or -1 on failure), and the clock
reading used for `reviewedAt`. -/
structure PipelineEnv where
  alreadyCommented : Bool
  diff : String
  claudeResult : Option String
  postResult : Int
  now : String
deriving DecidableEq, Repr

/-- Observable outcome of one pipeline run: the review store afterwards,
whether `onComplete(pr.id)` was called (terminal resolve), whether the
inference collaborator was invoked, and whether a publish was attempted. -/
structure RunResult where
  store : ReviewStore
  resolved : Bool
  generated : Bool
  published : Bool
deriving DecidableEq, Repr

/-- The onMount body of `ReviewPR` from src/src/components/review-pr.tsx, as a
state transformer over the review store. Stages in source order: the
`botAlreadyCommented` guard (skip with onComplete, no record), the empty-diff
guard (skip with onComplete), the tier computation (affects only prompt and
token budget, not control flow), the inference call (throw → onComplete, no
record), parse, publish (its return value only selects `commentId`), then
`recordReview` and `onComplete`. -/
def runReviewPR (jsonParse : String → Option ReviewResult) (env : PipelineEnv)
    (pr : PullRequestEvent) (st : ReviewStore) : RunResult :=
  if env.alreadyCommented then
    { store := st, resolved := true, generated := false, published := false }
  else if env.diff = "" then
    { store := st, resolved := true, generated := false, published := false }
  else
    match env.claudeResult with
    | none =>
      { store := st, resolved := true, generated := true, published := false }
    | some raw =>
      let reviewResult := parseReviewResult jsonParse raw pr
      let record : ReviewRecord :=
        { prId := pr.id, prNumber := pr.number, repo := pr.repo,
          reviewedAt := env.now, verdict := reviewResult.verdict,
          commentId := if env.postResult > 0 then some env.postResult else none }
      { store := recordReview st record, resolved := true, generated := true,
        published := true }

/-- C4 counterexample: when `botAlreadyCommented` reports an existing result,
the source skips the remaining stages and calls `onComplete` WITHOUT writing
any CompletionRecord — the store is unchanged and the item's id is still not
reviewed at the terminal state, refuting the claim that a synthesized record
is committed before the terminal state. -/
theorem already_commented_no_commit_counterexample :
    runReviewPR (fun _ => none)
      ⟨true, "diff text", some "raw output", 5, "2026-02-03T04:05:06Z"⟩
      samplePR (some []) =
      { store := some [], resolved := true, generated := false,
        published := false }
    ∧ isReviewed
        (runReviewPR (fun _ => none)
          ⟨true, "diff text", some "raw output", 5, "2026-02-03T04:05:06Z"⟩
          samplePR (some [])).store samplePR.id = false := by
  constructor <;> rfl

/-- C4 amended: for every admitted item for which the pre-Fetching check
against the code-hosting collaborator reports an existing result, the pipeline
skips Generating and Publishing AND Committing: it writes no CompletionRecord
(the store is returned unchanged) and immediately signals terminal completion
(onComplete) to the reconciler. -/
theorem already_commented_skips_all :
    ∀ (jsonParse : String → Option ReviewResult) (env : PipelineEnv)
      (pr : PullRequestEvent) (st : ReviewStore),
      env.alreadyCommented = true →
      runReviewPR jsonParse env pr st =
        { store := st, resolved := true, generated := false,
          published := false } := by
  intro jsonParse env pr st h
  simp [runReviewPR, h]

/-- Witness for C4 amended at a concrete input. -/
theorem already_commented_skips_all_witness :
    runReviewPR (fun _ => none)
      ⟨true, "d", some "r", 9, "2026-02-03T04:05:06Z"⟩ samplePR
      (some [sampleRecord]) =
      { store := some [sampleRecord], resolved := true, generated := false,
        published := false } :=
  already_commented_skips_all (fun _ => none)
    ⟨true, "d", some "r", 9, "2026-02-03T04:05:06Z"⟩ samplePR
    (some [sampleRecord]) rfl

/-- C5 counterexample: a full success-path run with the state store unmounted.
`recordReview` only logs a warning and returns void, so nothing is persisted
(`store` stays `none`, the id is not reviewed), yet the pipeline still signals
completion (`onComplete`) to the reconciler — refuting the claim that the
failure is reported to the pipeline and completion is not signalled until the
commit succeeds. -/
theorem commit_failure_counterexample :
    runReviewPR (fun _ => none)
      ⟨false, "diff text", some "raw output", 5, "2026-02-03T04:05:06Z"⟩
      samplePR none =
      { store := none, resolved := true, generated := true, published := true }
    ∧ isReviewed
        (runReviewPR (fun _ => none)
          ⟨false, "diff text", some "raw output", 5, "2026-02-03T04:05:06Z"⟩
          samplePR none).store samplePR.id = false := by
  constructor <;> rfl

/-- C5 amended: when persisting the CompletionRecord fails because the state
store is unmounted, `recordReview` logs a warning and returns without
reporting anything to the pipeline (void return in the source), and ReviewPR
signals completion (onComplete) to the reconciler regardless; the item is,
however, not marked completed — `isReviewed` stays false — so a redelivered
event would be admitted again. -/
theorem commit_failure_still_resolves :
    ∀ (jsonParse : String → Option ReviewResult) (env : PipelineEnv)
      (pr : PullRequestEvent) (raw : String),
      env.alreadyCommented = false → env.diff ≠ "" →
      env.claudeResult = some raw →
      (runReviewPR jsonParse env pr none).store = none
      ∧ (runReviewPR jsonParse env pr none).resolved = true
      ∧ isReviewed (runReviewPR jsonParse env pr none).store pr.id = false := by
  intro jsonParse env pr raw h1 h2 h3
  simp [runReviewPR, h1, h2, h3, recordReview, isReviewed]

/-- Witness for C5 amended at a concrete input. -/
theorem commit_failure_still_resolves_witness :
    (runReviewPR (fun _ => none)
      ⟨false, "d", some "raw", -1, "2026-02-03T04:05:06Z"⟩ samplePR none).store =
      none
    ∧ (runReviewPR (fun _ => none)
        ⟨false, "d", some "raw", -1, "2026-02-03T04:05:06Z"⟩ samplePR
        none).resolved = true
    ∧ isReviewed
        (runReviewPR (fun _ => none)
          ⟨false, "d", some "raw", -1, "2026-02-03T04:05:06Z"⟩ samplePR
          none).store samplePR.id = false :=
  commit_failure_still_resolves (fun _ => none)
    ⟨false, "d", some "raw", -1, "2026-02-03T04:05:06Z"⟩ samplePR "raw"
    rfl (by decide) rfl

/-- C7: a publish failure is non-fatal. When `postReviewComment` returns its
failure value -1, the pipeline still commits a CompletionRecord for the item —
with `commentId := none`, since the source keeps the id only when it is
positive — and reaches its terminal state with publish attempted. -/
theorem publish_failure_still_commits :
    ∀ (jsonParse : String → Option ReviewResult) (env : PipelineEnv)
      (pr : PullRequestEvent) (l : List ReviewRecord) (raw : String),
      env.alreadyCommented = false → env.diff ≠ "" →
      env.claudeResult = some raw → env.postResult = -1 →
      runReviewPR jsonParse env pr (some l) =
        { store := some (l ++
            [{ prId := pr.id, prNumber := pr.number,
               repo := pr.repo, reviewedAt := env.now,
               verdict := (parseReviewResult jsonParse raw pr).verdict,
               commentId := none }]),
          resolved := true, generated := true, published := true } := by
  intro jsonParse env pr l raw h1 h2 h3 h4
  simp [runReviewPR, h1, h2, h3, h4, recordReview]

/-- Witness for C7 at a concrete input. -/
theorem publish_failure_still_commits_witness :
    runReviewPR (fun _ => none)
      ⟨false, "d", some "raw", -1, "2026-02-03T04:05:06Z"⟩ samplePR (some []) =
      { store :=
          some [{ prId := samplePR.id, prNumber := samplePR.number,
                  repo := samplePR.repo, reviewedAt := "2026-02-03T04:05:06Z",
                  verdict :=
                    (parseReviewResult (fun _ => none) "raw" samplePR).verdict,
                  commentId := none }],
        resolved := true, generated := true, published := true } :=
  publish_failure_still_commits (fun _ => none)
    ⟨false, "d", some "raw", -1, "2026-02-03T04:05:06Z"⟩ samplePR [] "raw"
    rfl (by decide) rfl rfl

/-- C8: `parseReviewResult` is total (a plain Lean function, mirroring the
source's try/catch), and on parse failure it returns the minimal fallback:
verdict `comment`, severity `low`, empty findings, and a `commentBody` that is
the fixed intro text followed by the raw model output; on parse success it
returns the parsed result unchanged, so a successful inference call is never
discarded. -/
theorem parseReviewResult_fallback :
    ∀ (jsonParse : String → Option ReviewResult) (raw : String)
      (pr : PullRequestEvent),
      (jsonParse (cleanFences raw) = none →
        (parseReviewResult jsonParse raw pr).verdict = .comment
        ∧ (parseReviewResult jsonParse raw pr).severity = .low
        ∧ (parseReviewResult jsonParse raw pr).findings = []
        ∧ (parseReviewResult jsonParse raw pr).commentBody = fallbackIntro ++ raw)
      ∧ (∀ r : ReviewResult, jsonParse (cleanFences raw) = some r →
          parseReviewResult jsonParse raw pr = r) := by
  intro jsonParse raw pr
  constructor
  · intro h
    simp [parseReviewResult, h]
  · intro r h
    simp [parseReviewResult, h]

/-- Witness for C8: the fallback branch at a concrete unparseable input. -/
theorem parseReviewResult_fallback_witness :
    (parseReviewResult (fun _ => none) "not json at all" samplePR).verdict =
      .comment
    ∧ (parseReviewResult (fun _ => none) "not json at all" samplePR).severity =
      .low
    ∧ (parseReviewResult (fun _ => none) "not json at all" samplePR).findings = []
    ∧ (parseReviewResult (fun _ => none) "not json at all" samplePR).commentBody =
      fallbackIntro ++ "not json at all" :=
  (parseReviewResult_fallback (fun _ => none) "not json at all" samplePR).1 rfl

end PRReviewBot

namespace PRReviewBot

/-! The durable-storage flush of src/src/memory.ts. -/

/-- Contents of the durable snapshot file for the scheduler's stack name
(`.state/pr-review-bot.json`): `none` when absent, `some data` otherwise. -/
structure DurableStore where
  contents : Option String
deriving DecidableEq, Repr

/-- `FileMemory.saveState` from src/src/memory.ts as its sequence of durable
storage mutations, one list entry per point a process stop can strike. The
complete snapshot string (`JSON.stringify(state, null, 2)`) is fully built
before either storage call runs, hence it is a parameter. Step 1,
`mkdir(recursive)`, leaves the file contents unchanged. The single
`fs/promises.writeFile` call that follows mutates `${stackName}.json` IN
PLACE — there is no write-to-a-new-copy-then-rename swap in the source — so
it is expanded into its non-atomic durability steps: opening with flag "w"
truncates the file to empty, and the data then reaches the disk
incrementally, modelled one character per step, so a stop mid-write leaves a
proper prefix of the new snapshot. -/
def saveStateOps (snapshot : String) : List (DurableStore → DurableStore) :=
  (fun st => st) ::
  (fun _ => { contents := some "" }) ::
  snapshot.data.map
    (fun c => fun st => { contents := some ((st.contents.getD "").push c) })

/-- The storage state observed if the process stops after the first `k` steps
of an operation sequence. -/
def crashAfter (ops : List (DurableStore → DurableStore)) (k : Nat)
    (st : DurableStore) : DurableStore :=
  (ops.take k).foldl (fun s f => f s) st

/-- C6 failing input, evaluated on the model of the code: the durable file
holds "old snapshot" and `saveState` flushes the new snapshot "new snapshot".
A stop right after the truncating open of the in-place `writeFile` (k = 2)
leaves the file empty, and a stop after three characters are written (k = 5)
leaves the partial content "new" — in both cases the previous snapshot is
destroyed rather than remaining fully readable and unchanged, and the second
case is a partially written durable state, which the specification says can
never happen (build full new snapshot, then replace / write to a new copy,
then swap). The code writes in place and so does not provide this. -/
theorem saveState_inPlace_write_destroys_previous :
    crashAfter (saveStateOps "new snapshot") 2 { contents := some "old snapshot" } =
      { contents := some "" }
    ∧ crashAfter (saveStateOps "new snapshot") 5 { contents := some "old snapshot" } =
      { contents := some "new" }
    ∧ crashAfter (saveStateOps "new snapshot") 5 { contents := some "old snapshot" } ≠
      { contents := some "old snapshot" }
    ∧ crashAfter (saveStateOps "new snapshot") 5 { contents := some "old snapshot" } ≠
      { contents := some "new snapshot" } := by
  refine ⟨rfl, rfl, by decide, by decide⟩

end PRReviewBot
